import Mathlib

/-!
Verification model of the impact-physics and orbital-geometry core of the
asteroid tracker (the final module version in the source tree): JavaScript
number special values (NaN and the infinities) are modelled explicitly where
the code branches on them, the numeric formulas are modelled over the exact
reals, and the string formatting (toFixed, toLocaleString) is modelled by
executable functions on integers.
-/

/-- Decimal rendering of an integer k with f fractional digits, as produced by
JavaScript toFixed after rounding: k counts units of 10 ^ (-f). -/
def fmtFixed (f : Nat) (k : Int) : String :=
  let sign := if k < 0 then "-" else ""
  let n := k.natAbs
  if f = 0 then sign ++ toString n
  else
    let base := 10 ^ f
    let fracStr := toString (n % base)
    let padding := String.mk (List.replicate (f - fracStr.length) '0')
    sign ++ toString (n / base) ++ "." ++ padding ++ fracStr

/-- Insert a comma before every third digit of a reversed (least-significant
first) digit list, as used for thousands grouping; k counts digits already
emitted. -/
def insertCommasRev : List Char → Nat → List Char
  | [], _ => []
  | d :: ds, k =>
      if k % 3 = 0 ∧ k ≠ 0 then ',' :: d :: insertCommasRev ds (k + 1)
      else d :: insertCommasRev ds (k + 1)

/-- Number.prototype.toLocaleString for a nonnegative integer: decimal digits
grouped in threes and separated by commas (en-US grouping). -/
def groupComma (n : Nat) : String :=
  String.mk (insertCommasRev (toString n).toList.reverse 0).reverse

noncomputable section

/-- JavaScript double values, abstracted: NaN, the two infinities, and finite
values modelled as exact reals. -/
inductive JsNum where
  | nan : JsNum
  | inf : JsNum
  | ninf : JsNum
  | fin : ℝ → JsNum

namespace JsNum

/-- Number.isNaN test. -/
def isNaN : JsNum → Bool
  | nan => true
  | _ => false

/-- Number.isFinite test. -/
def isFinite : JsNum → Bool
  | fin _ => true
  | _ => false

/-- The finite payload of a JS number, when there is one. -/
def toFinite : JsNum → Option ℝ
  | fin x => some x
  | _ => none

end JsNum

/-- JavaScript addition on JS numbers. -/
def jsAdd : JsNum → JsNum → JsNum
  | .nan, _ => .nan
  | _, .nan => .nan
  | .inf, .ninf => .nan
  | .ninf, .inf => .nan
  | .inf, _ => .inf
  | _, .inf => .inf
  | .ninf, _ => .ninf
  | _, .ninf => .ninf
  | .fin x, .fin y => .fin (x + y)

/-- JavaScript subtraction on JS numbers. -/
def jsSub : JsNum → JsNum → JsNum
  | .nan, _ => .nan
  | _, .nan => .nan
  | .inf, .inf => .nan
  | .ninf, .ninf => .nan
  | .inf, _ => .inf
  | .ninf, _ => .ninf
  | _, .inf => .ninf
  | _, .ninf => .inf
  | .fin x, .fin y => .fin (x - y)

/-- JavaScript unary minus on JS numbers. -/
def jsNeg : JsNum → JsNum
  | .nan => .nan
  | .inf => .ninf
  | .ninf => .inf
  | .fin x => .fin (-x)

/-- JavaScript multiplication on JS numbers. -/
def jsMul : JsNum → JsNum → JsNum
  | .nan, _ => .nan
  | _, .nan => .nan
  | .inf, .inf => .inf
  | .inf, .ninf => .ninf
  | .ninf, .inf => .ninf
  | .ninf, .ninf => .inf
  | .inf, .fin y => if 0 < y then .inf else if y < 0 then .ninf else .nan
  | .fin x, .inf => if 0 < x then .inf else if x < 0 then .ninf else .nan
  | .ninf, .fin y => if 0 < y then .ninf else if y < 0 then .inf else .nan
  | .fin x, .ninf => if 0 < x then .ninf else if x < 0 then .inf else .nan
  | .fin x, .fin y => .fin (x * y)

/-- JavaScript division on JS numbers (a signed zero is abstracted to 0, so a
division by an exact 0 of a positive number gives Infinity). -/
def jsDiv : JsNum → JsNum → JsNum
  | .nan, _ => .nan
  | _, .nan => .nan
  | .inf, .inf => .nan
  | .inf, .ninf => .nan
  | .ninf, .inf => .nan
  | .ninf, .ninf => .nan
  | .inf, .fin y => if 0 ≤ y then .inf else .ninf
  | .ninf, .fin y => if 0 ≤ y then .ninf else .inf
  | .fin _, .inf => .fin 0
  | .fin _, .ninf => .fin 0
  | .fin x, .fin y =>
      if y = 0 then (if 0 < x then .inf else if x < 0 then .ninf else .nan)
      else .fin (x / y)

/-- Math.abs on JS numbers. -/
def jsAbs : JsNum → JsNum
  | .nan => .nan
  | .inf => .inf
  | .ninf => .inf
  | .fin x => .fin |x|

/-- Math.sqrt on JS numbers: NaN on negative arguments. -/
def jsSqrt : JsNum → JsNum
  | .nan => .nan
  | .inf => .inf
  | .ninf => .nan
  | .fin x => if 0 ≤ x then .fin (Real.sqrt x) else .nan

/-- Math.exp on JS numbers. -/
def jsExp : JsNum → JsNum
  | .nan => .nan
  | .inf => .inf
  | .ninf => .fin 0
  | .fin x => .fin (Real.exp x)

/-- Math.sin on JS numbers: NaN on non-finite arguments. -/
def jsSin : JsNum → JsNum
  | .fin x => .fin (Real.sin x)
  | _ => .nan

/-- Math.cos on JS numbers: NaN on non-finite arguments. -/
def jsCos : JsNum → JsNum
  | .fin x => .fin (Real.cos x)
  | _ => .nan

/-- Math.max on two JS numbers: NaN if either argument is NaN. -/
def jsMax : JsNum → JsNum → JsNum
  | .nan, _ => .nan
  | _, .nan => .nan
  | .inf, _ => .inf
  | _, .inf => .inf
  | .ninf, b => b
  | a, .ninf => a
  | .fin x, .fin y => .fin (max x y)

/-- Math.min on two JS numbers: NaN if either argument is NaN. -/
def jsMin : JsNum → JsNum → JsNum
  | .nan, _ => .nan
  | _, .nan => .nan
  | .ninf, _ => .ninf
  | _, .ninf => .ninf
  | .inf, b => b
  | a, .inf => a
  | .fin x, .fin y => .fin (min x y)

/-- The JavaScript comparison a < b on JS numbers: false whenever NaN is
involved. -/
def jsLt : JsNum → JsNum → Bool
  | .nan, _ => false
  | _, .nan => false
  | .ninf, .ninf => false
  | .ninf, _ => true
  | _, .ninf => false
  | .inf, _ => false
  | .fin _, .inf => true
  | .fin x, .fin y => decide (x < y)

/-- Math.pow on a JS number base and a rational literal exponent, as used by the
source (exponents 1.6, 1.2 and 2). A nonnegative finite base uses the real
power; a negative finite base is NaN unless the exponent is an integer. -/
def jsPowQ : JsNum → ℚ → JsNum
  | .nan, _ => .nan
  | .inf, e => if 0 < e then .inf else if e = 0 then .fin 1 else .fin 0
  | .ninf, e =>
      if 0 < e then (if e.den = 1 ∧ e.num % 2 ≠ 0 then .ninf else .inf)
      else if e = 0 then .fin 1
      else .fin 0
  | .fin x, e =>
      if 0 ≤ x then
        (if x = 0 ∧ e < 0 then .inf else .fin (x ^ (e : ℝ)))
      else if e.den = 1 then .fin (x ^ e.num)
      else .nan

/-- Math.atan2 on JS numbers (y first, as in JavaScript); the finite case is the
argument of the complex number x + y i, which has the atan2 quadrant
conventions. -/
def jsAtan2 : JsNum → JsNum → JsNum
  | .nan, _ => .nan
  | _, .nan => .nan
  | .inf, .inf => .fin (Real.pi / 4)
  | .inf, .ninf => .fin (3 * Real.pi / 4)
  | .ninf, .inf => .fin (-(Real.pi / 4))
  | .ninf, .ninf => .fin (-(3 * Real.pi / 4))
  | .inf, .fin _ => .fin (Real.pi / 2)
  | .ninf, .fin _ => .fin (-(Real.pi / 2))
  | .fin _, .inf => .fin 0
  | .fin y, .ninf => if 0 ≤ y then .fin Real.pi else .fin (-Real.pi)
  | .fin y, .fin x => .fin (Complex.arg ⟨x, y⟩)

/-- JavaScript Number.prototype.toFixed on an exact real: round to f decimal
digits, nearest with ties toward the larger value, then render. -/
def toFixed (f : Nat) (x : ℝ) : String :=
  fmtFixed f ⌊x * 10 ^ f + 1 / 2⌋

/-- Math.round semantics on an exact real. -/
def jsRound (x : ℝ) : Int := ⌊x + 1 / 2⌋

/-- formatInteger from the source: Math.max(0, Math.round(value)) rendered with
toLocaleString. -/
def formatInteger (value : ℝ) : String := groupComma (max 0 (jsRound value)).toNat

/-- EARTH_RADIUS_KM constant from the source. -/
def EARTH_RADIUS_KM : ℝ := 6371

/-- Entry of the populationCenters table; the source literals are decimal, so
the fields are rationals. -/
structure PopulationCenter where
  lat : ℚ
  lng : ℚ
  density : ℚ
  sigmaKm : ℚ

/-- The 18 hard-coded population centers of the analytic density fallback. -/
def populationCenters : List PopulationCenter := [
  ⟨28.6139, 77.209, 14000, 230⟩,
  ⟨19.076, 72.8777, 15000, 180⟩,
  ⟨40.7128, -74.006, 11500, 160⟩,
  ⟨34.0522, -118.2437, 6500, 150⟩,
  ⟨51.5074, -0.1278, 10200, 180⟩,
  ⟨39.9042, 116.4074, 13500, 220⟩,
  ⟨35.6762, 139.6503, 14800, 170⟩,
  ⟨-23.5505, -46.6333, 9300, 210⟩,
  ⟨-1.2864, 36.8172, 7200, 190⟩,
  ⟨6.5244, 3.3792, 13800, 210⟩,
  ⟨-6.2088, 106.8456, 12500, 200⟩,
  ⟨30.0444, 31.2357, 9800, 170⟩,
  ⟨55.7558, 37.6173, 7800, 200⟩,
  ⟨19.4326, -99.1332, 11800, 190⟩,
  ⟨-34.6037, -58.3816, 8700, 180⟩,
  ⟨37.5665, 126.978, 14200, 150⟩,
  ⟨41.0082, 28.9784, 9700, 170⟩,
  ⟨14.5995, 120.9842, 12100, 180⟩]

/-- toRadians from the source, on JS numbers: (degrees * Math.PI) / 180. -/
def toRadiansJs (degrees : JsNum) : JsNum :=
  jsDiv (jsMul degrees (.fin Real.pi)) (.fin 180)

/-- haversineDistanceKm from the source, on JS numbers, with the multiplications
grouped left-associatively as in the JavaScript expression. -/
def haversineDistanceKm (lat1 lng1 lat2 lng2 : JsNum) : JsNum :=
  let dLat := toRadiansJs (jsSub lat2 lat1)
  let dLng := toRadiansJs (jsSub lng2 lng1)
  let a := jsAdd
    (jsMul (jsSin (jsDiv dLat (.fin 2))) (jsSin (jsDiv dLat (.fin 2))))
    (jsMul (jsMul (jsMul (jsCos (toRadiansJs lat1)) (jsCos (toRadiansJs lat2)))
      (jsSin (jsDiv dLng (.fin 2)))) (jsSin (jsDiv dLng (.fin 2))))
  let c := jsMul (.fin 2) (jsAtan2 (jsSqrt a) (jsSqrt (jsSub (.fin 1) a)))
  jsMul (.fin EARTH_RADIUS_KM) c

/-- One iteration of the population-center loop of
estimatePopulationDensityFallback; the state is the pair
(accumulated density, minimum distance so far). -/
def fallbackLoopStep (lat lng : JsNum) (state : JsNum × JsNum)
    (center : PopulationCenter) : JsNum × JsNum :=
  let distanceKm := haversineDistanceKm lat lng (.fin (center.lat : ℝ)) (.fin (center.lng : ℝ))
  let minDistance := if jsLt distanceKm state.2 then distanceKm else state.2
  let contribution := jsMul (.fin (center.density : ℝ))
    (jsExp (jsDiv (jsNeg (jsPowQ distanceKm 2))
      (jsMul (jsMul (.fin 2) (.fin (center.sigmaKm : ℝ))) (.fin (center.sigmaKm : ℝ)))))
  (jsAdd state.1 contribution, minDistance)

/-- estimatePopulationDensityFallback from the source, on JS numbers. -/
def estimatePopulationDensityFallback (lat lng : JsNum) : JsNum :=
  let baseDensity : JsNum := .fin 25
  let latWeight := jsPowQ (jsMax (.fin 0)
    (jsSub (.fin 1) (jsPowQ (jsDiv (jsAbs lat) (.fin 72)) 1.6))) 1.2
  let looped := populationCenters.foldl (fallbackLoopStep lat lng) (.fin 0, .inf)
  let density := looped.1
  let minDistance := looped.2
  let continentalBias := jsMul latWeight (.fin 220)
  let density2 :=
    if jsLt minDistance (.fin 600) then jsAdd density (jsAdd baseDensity continentalBias)
    else if jsLt minDistance (.fin 1200) then
      jsAdd density (jsMul (jsAdd baseDensity continentalBias) (.fin 0.4))
    else density
  jsMin (jsMax density2 (.fin 0)) (.fin 30000)

/-- estimatePopulationDensity from the source. The raster lookup needs a DOM
canvas, so in a headless context samplePopulationDensityFromMap always yields
null and the analytic fallback runs. An absent argument is none; a NaN argument
(for example the result of parsing an empty string) is JsNum.nan. -/
def estimatePopulationDensity (lat lng : Option JsNum) : JsNum :=
  match lat, lng with
  | some latV, some lngV =>
      if latV.isNaN || lngV.isNaN then .fin 120
      else estimatePopulationDensityFallback latV lngV
  | _, _ => .fin 120

/-- DEG2RAD constant from the source. -/
def DEG2RAD : ℝ := Real.pi / 180

/-- RAD2DEG constant from the source. -/
def RAD2DEG : ℝ := 180 / Real.pi

/-- clamp from the source: Math.min(Math.max(value, lo), hi). -/
def clamp (value lo hi : ℝ) : ℝ := min (max value lo) hi

/-- SimpleVector from the source. -/
structure SimpleVector where
  x : ℝ
  y : ℝ
  z : ℝ

/-- Math.hypot of three arguments on exact reals. -/
def hypot3 (x y z : ℝ) : ℝ := Real.sqrt (x ^ 2 + y ^ 2 + z ^ 2)

/-- Math.hypot of two arguments on exact reals. -/
def hypot2 (x y : ℝ) : ℝ := Real.sqrt (x ^ 2 + y ^ 2)

/-- normalizeVector from the source. -/
def normalizeVector (v : SimpleVector) : SimpleVector :=
  let length := hypot3 v.x v.y v.z
  if length = 0 then ⟨0, 0, 0⟩ else ⟨v.x / length, v.y / length, v.z / length⟩

/-- Math.atan2 on exact reals (y first, as in JavaScript): the argument of the
complex number x + y i. -/
def atan2 (y x : ℝ) : ℝ := Complex.arg ⟨x, y⟩

/-- One Newton-Raphson iteration of the Kepler solver from the source. -/
def keplerStep (eccentricity meanAnomalyRad E : ℝ) : ℝ :=
  E - (E - eccentricity * Real.sin E - meanAnomalyRad) / (1 - eccentricity * Real.cos E)

/-- solveKeplerEquation from the source: initial guess M for e below 0.8 and pi
otherwise, then exactly 12 Newton-Raphson iterations. -/
def solveKeplerEquation (meanAnomalyRad eccentricity : ℝ) : ℝ :=
  (keplerStep eccentricity meanAnomalyRad)^[12]
    (if eccentricity < 0.8 then meanAnomalyRad else Real.pi)

/-- Orbital elements after parseFloat: each field holds the parsed JS number
(JsNum.nan for an empty or malformed string). -/
structure NeoOrbitalData where
  eccentricity : JsNum
  inclination : JsNum
  ascending_node_longitude : JsNum
  perihelion_argument : JsNum
  mean_anomaly : JsNum
  semi_major_axis : JsNum

/-- OrbitalGeometry record from the source. -/
structure OrbitalGeometry where
  p : SimpleVector
  q : SimpleVector
  eccentricity : ℝ
  inclinationDeg : ℝ
  semiMajorAu : ℝ
  trueAnomalyRad : ℝ
  impactAngleDeg : ℝ
  impactAzimuthDeg : ℝ

/-- Truncation toward zero, as used by the JavaScript % operator. -/
def jsTrunc (x : ℝ) : Int := if 0 ≤ x then ⌊x⌋ else ⌈x⌉

/-- The JavaScript remainder a % b for b different from 0: the sign follows the
dividend. -/
def jsRem (a b : ℝ) : ℝ := a - b * jsTrunc (a / b)

/-- Body of computeOrbitalGeometry after all six elements have parsed to finite
values, over exact reals. In this model no intermediate value is non-finite, so
the Number.isFinite(impactAngleDeg) fallback to 45 in the source never fires; it
is therefore omitted (the clamp applies directly). -/
def computeOrbitalGeometryCore
    (eccentricity inclinationDeg ascendingNodeDeg perihelionArgDeg meanAnomalyDeg semiMajorAu : ℝ)
    (relativeVelocityKms : Option JsNum) : Option OrbitalGeometry :=
  let inclinationRad := inclinationDeg * DEG2RAD
  let ascendingNodeRad := ascendingNodeDeg * DEG2RAD
  let perihelionArgRad := perihelionArgDeg * DEG2RAD
  let meanAnomalyRad := meanAnomalyDeg * DEG2RAD
  let eccentricAnomaly := solveKeplerEquation meanAnomalyRad eccentricity
  let trueAnomalyRad := 2 * atan2
    (Real.sqrt (1 + eccentricity) * Real.sin (eccentricAnomaly / 2))
    (Real.sqrt (1 - eccentricity) * Real.cos (eccentricAnomaly / 2))
  let cosO := Real.cos ascendingNodeRad
  let sinO := Real.sin ascendingNodeRad
  let cosI := Real.cos inclinationRad
  let sinI := Real.sin inclinationRad
  let cosW := Real.cos perihelionArgRad
  let sinW := Real.sin perihelionArgRad
  let pVector : SimpleVector :=
    ⟨cosO * cosW - sinO * sinW * cosI, sinO * cosW + cosO * sinW * cosI, sinW * sinI⟩
  let qVector : SimpleVector :=
    ⟨-cosO * sinW - sinO * cosW * cosI, -sinO * sinW + cosO * cosW * cosI, cosW * sinI⟩
  let sqrtOneMinusESq := Real.sqrt (max 0 (1 - eccentricity * eccentricity))
  let sinE := Real.sin eccentricAnomaly
  let cosE := Real.cos eccentricAnomaly
  let velocityVector := normalizeVector
    ⟨-sinE * pVector.x + sqrtOneMinusESq * cosE * qVector.x,
     -sinE * pVector.y + sqrtOneMinusESq * cosE * qVector.y,
     -sinE * pVector.z + sqrtOneMinusESq * cosE * qVector.z⟩
  if velocityVector.x = 0 ∧ velocityVector.y = 0 ∧ velocityVector.z = 0 then none
  else
    let horizontalMagnitude := hypot2 velocityVector.x velocityVector.y
    let verticalMagnitude := |velocityVector.z|
    let relativeVelocity : Option ℝ := match relativeVelocityKms with
      | some (.fin v) => if v = 0 then none else some v
      | _ => none
    let impactAngleRad := match relativeVelocity with
      | some rv => atan2 (verticalMagnitude * rv) (max 1e-6 (horizontalMagnitude * rv))
      | none => atan2 verticalMagnitude (max 1e-6 horizontalMagnitude)
    let impactAngleDeg := clamp (impactAngleRad * RAD2DEG) 5 90
    let impactAzimuthDeg := jsRem (atan2 velocityVector.x velocityVector.y * RAD2DEG + 360) 360
    some ⟨pVector, qVector, eccentricity, inclinationDeg, semiMajorAu, trueAnomalyRad,
      impactAngleDeg, impactAzimuthDeg⟩

/-- computeOrbitalGeometry from the source: null when the elements record is
absent or any of the six parsed values is not a finite number; otherwise the
geometry computation runs on the six finite values. -/
def computeOrbitalGeometry (orbitalData : Option NeoOrbitalData)
    (relativeVelocityKms : Option JsNum) : Option OrbitalGeometry :=
  match orbitalData with
  | none => none
  | some od =>
    match od.eccentricity.toFinite, od.inclination.toFinite,
      od.ascending_node_longitude.toFinite, od.perihelion_argument.toFinite,
      od.mean_anomaly.toFinite, od.semi_major_axis.toFinite with
    | some e, some i, some o, some w, some m, some a =>
        computeOrbitalGeometryCore e i o w m a relativeVelocityKms
    | _, _, _, _, _, _ => none

/-- The fields of the Asteroid record that calculateImpactEffects reads. -/
structure AsteroidIn where
  diameter_km : ℝ
  velocity_kmh : ℝ

/-- The numeric values computed inside calculateImpactEffects before string
formatting, one field per local binding of the source. -/
structure ImpactVals where
  energy : ℝ
  craterDiameter : ℝ
  craterDepth : ℝ
  fireballRadius : ℝ
  shockwaveRadius : ℝ
  windBlastRadius : ℝ
  earthquakeRadius : ℝ
  populationDensity : ℝ
  craterCasualties : ℝ
  fireballDeaths : ℝ
  fireball3rdBurns : ℝ
  fireball2ndBurns : ℝ
  shockwaveDeaths : ℝ
  windBlastDeaths : ℝ
  earthquakeDeaths : ℝ
  exposedPopulation : ℝ
  windSpeed : ℝ
  shockwaveDecibels : ℝ
  earthquakeMagnitude : ℝ
  impactSpeed : ℝ
  averageYears : Int
  tsunamiHeight : ℝ

/-- The numeric part of calculateImpactEffects from the source. The target
location, when present, is a finite (lat, lng) pair. -/
def calculateImpactEffectsVals (asteroid : AsteroidIn)
    (targetLocation : Option (ℝ × ℝ)) : ImpactVals :=
  let energy := 0.5 * asteroid.diameter_km ^ 3 * (asteroid.velocity_kmh / 3600) ^ 2 / 1000
  let craterDiameter := asteroid.diameter_km * 20
  let craterDepth := craterDiameter * 0.3
  let fireballRadius := asteroid.diameter_km * 5
  let shockwaveRadius := asteroid.diameter_km * 50
  let windBlastRadius := asteroid.diameter_km * 40
  let earthquakeRadius := asteroid.diameter_km * 100
  let localPopulationDensity := estimatePopulationDensity
    (targetLocation.map fun t => .fin t.1) (targetLocation.map fun t => .fin t.2)
  let populationDensity : ℝ := match localPopulationDensity with
    | .fin x => x
    | _ => 120
  let craterArea := Real.pi * (craterDiameter / 2) ^ 2
  let fireballArea := Real.pi * fireballRadius ^ 2
  let shockwaveArea := Real.pi * shockwaveRadius ^ 2
  let windBlastArea := Real.pi * windBlastRadius ^ 2
  let craterCasualties := craterArea * populationDensity * 0.95
  let fireballDeaths := max 0 ((fireballArea - craterArea) * populationDensity * 0.85)
  let fireball3rdBurns := fireballArea * populationDensity * 0.06
  let fireball2ndBurns := fireballArea * populationDensity * 0.12
  let shockwaveDeaths := max 0 ((shockwaveArea - fireballArea) * populationDensity * 0.28)
  let windBlastDeaths := max 0 ((windBlastArea - fireballArea) * populationDensity * 0.18)
  let earthquakeDeaths := earthquakeRadius * populationDensity * 0.015
  let exposedPopulation := shockwaveArea * populationDensity
  let windSpeed := min (asteroid.velocity_kmh * 0.1) 15000
  let shockwaveDecibels := min (200 + Real.logb 10 (max 1 energy) * 10) 250
  let earthquakeMagnitude := min (5 + Real.logb 10 (max 1 energy)) 10
  let impactSpeed := asteroid.velocity_kmh * 0.95
  let averageYears := max ⌊energy * 15000⌋ 1000
  let tsunamiHeight := if 0.5 < asteroid.diameter_km then asteroid.diameter_km * 10 else 0
  ⟨energy, craterDiameter, craterDepth, fireballRadius, shockwaveRadius, windBlastRadius,
   earthquakeRadius, populationDensity, craterCasualties, fireballDeaths, fireball3rdBurns,
   fireball2ndBurns, shockwaveDeaths, windBlastDeaths, earthquakeDeaths, exposedPopulation,
   windSpeed, shockwaveDecibels, earthquakeMagnitude, impactSpeed, averageYears, tsunamiHeight⟩

/-- The ImpactEffects string report returned by calculateImpactEffects. -/
structure ImpactEffects where
  energy_megatons : String
  impact_speed_mph : String
  average_occurrence_years : String
  local_population_density_per_km2 : String
  estimated_population_exposed : String
  crater_diameter_km : String
  crater_diameter_miles : String
  crater_depth_ft : String
  crater_casualties : String
  fireball_radius_km : String
  fireball_radius_miles : String
  fireball_deaths : String
  fireball_3rd_degree_burns : String
  fireball_2nd_degree_burns : String
  fireball_tree_ignition_miles : String
  shockwave_radius_km : String
  shockwave_radius_miles : String
  shockwave_decibels : String
  shockwave_deaths : String
  shockwave_lung_damage_miles : String
  shockwave_eardrum_rupture_miles : String
  shockwave_building_collapse_miles : String
  shockwave_home_collapse_miles : String
  wind_blast_radius_km : String
  wind_blast_radius_miles : String
  wind_peak_speed_mph : String
  wind_deaths : String
  wind_jupiter_storm_miles : String
  wind_complete_level_miles : String
  wind_ef5_tornado_miles : String
  wind_trees_down_miles : String
  earthquake_magnitude : String
  earthquake_deaths : String
  earthquake_felt_miles : String
  tsunami_height_m : String

/-- calculateImpactEffects from the source: the numeric computation above,
rendered into the fixed-precision string report. -/
def calculateImpactEffects (asteroid : AsteroidIn)
    (targetLocation : Option (ℝ × ℝ)) : ImpactEffects :=
  let v := calculateImpactEffectsVals asteroid targetLocation
  { energy_megatons := toFixed 2 v.energy
    impact_speed_mph := toFixed 0 (v.impactSpeed * 0.621371)
    average_occurrence_years := groupComma v.averageYears.toNat
    local_population_density_per_km2 := toFixed 0 v.populationDensity
    estimated_population_exposed := formatInteger v.exposedPopulation
    crater_diameter_km := toFixed 2 v.craterDiameter
    crater_diameter_miles := toFixed 1 (v.craterDiameter * 0.621371)
    crater_depth_ft := toFixed 0 (v.craterDepth * 3280.84)
    crater_casualties := formatInteger v.craterCasualties
    fireball_radius_km := toFixed 2 v.fireballRadius
    fireball_radius_miles := toFixed 1 (v.fireballRadius * 0.621371)
    fireball_deaths := formatInteger v.fireballDeaths
    fireball_3rd_degree_burns := formatInteger v.fireball3rdBurns
    fireball_2nd_degree_burns := formatInteger v.fireball2ndBurns
    fireball_tree_ignition_miles := toFixed 0 (v.fireballRadius * 0.8 * 0.621371)
    shockwave_radius_km := toFixed 2 v.shockwaveRadius
    shockwave_radius_miles := toFixed 1 (v.shockwaveRadius * 0.621371)
    shockwave_decibels := toFixed 0 v.shockwaveDecibels
    shockwave_deaths := formatInteger v.shockwaveDeaths
    shockwave_lung_damage_miles := toFixed 0 (v.shockwaveRadius * 0.3 * 0.621371)
    shockwave_eardrum_rupture_miles := toFixed 0 (v.shockwaveRadius * 0.4 * 0.621371)
    shockwave_building_collapse_miles := toFixed 0 (v.shockwaveRadius * 0.7 * 0.621371)
    shockwave_home_collapse_miles := toFixed 0 (v.shockwaveRadius * 0.9 * 0.621371)
    wind_blast_radius_km := toFixed 2 v.windBlastRadius
    wind_blast_radius_miles := toFixed 1 (v.windBlastRadius * 0.621371)
    wind_peak_speed_mph := toFixed 0 (v.windSpeed * 0.621371)
    wind_deaths := formatInteger v.windBlastDeaths
    wind_jupiter_storm_miles := toFixed 0 (v.windBlastRadius * 0.2 * 0.621371)
    wind_complete_level_miles := toFixed 0 (v.windBlastRadius * 0.35 * 0.621371)
    wind_ef5_tornado_miles := toFixed 0 (v.windBlastRadius * 0.6 * 0.621371)
    wind_trees_down_miles := toFixed 0 (v.windBlastRadius * 0.621371)
    earthquake_magnitude := toFixed 1 v.earthquakeMagnitude
    earthquake_deaths := formatInteger v.earthquakeDeaths
    earthquake_felt_miles := toFixed 0 (v.earthquakeRadius * 0.621371)
    tsunami_height_m := if 0.5 < asteroid.diameter_km
      then toFixed 1 (asteroid.diameter_km * 10) else "0" }

/-- Field-wise order on the numeric impact values. -/
def ImpactValsLe (A B : ImpactVals) : Prop :=
  A.energy ≤ B.energy ∧
  A.craterDiameter ≤ B.craterDiameter ∧
  A.craterDepth ≤ B.craterDepth ∧
  A.fireballRadius ≤ B.fireballRadius ∧
  A.shockwaveRadius ≤ B.shockwaveRadius ∧
  A.windBlastRadius ≤ B.windBlastRadius ∧
  A.earthquakeRadius ≤ B.earthquakeRadius ∧
  A.populationDensity ≤ B.populationDensity ∧
  A.craterCasualties ≤ B.craterCasualties ∧
  A.fireballDeaths ≤ B.fireballDeaths ∧
  A.fireball3rdBurns ≤ B.fireball3rdBurns ∧
  A.fireball2ndBurns ≤ B.fireball2ndBurns ∧
  A.shockwaveDeaths ≤ B.shockwaveDeaths ∧
  A.windBlastDeaths ≤ B.windBlastDeaths ∧
  A.earthquakeDeaths ≤ B.earthquakeDeaths ∧
  A.exposedPopulation ≤ B.exposedPopulation ∧
  A.windSpeed ≤ B.windSpeed ∧
  A.shockwaveDecibels ≤ B.shockwaveDecibels ∧
  A.earthquakeMagnitude ≤ B.earthquakeMagnitude ∧
  A.impactSpeed ≤ B.impactSpeed ∧
  A.averageYears ≤ B.averageYears ∧
  A.tsunamiHeight ≤ B.tsunamiHeight

/-! Helper lemmas about the JS-number model. -/

theorem jsAdd_nan (x : JsNum) : jsAdd x .nan = .nan := by cases x <;> rfl

theorem haversine_inf_lat (lng lat2 lng2 : ℝ) :
    haversineDistanceKm .inf (.fin lng) (.fin lat2) (.fin lng2) = .nan := by
  norm_num [haversineDistanceKm, toRadiansJs, EARTH_RADIUS_KM, jsSub, jsMul, jsDiv,
    jsSin, jsCos, jsAdd, jsSqrt, jsAtan2, Real.pi_pos]

theorem fallbackLoopStep_inf_lat (lng : ℝ) (st : JsNum × JsNum) (c : PopulationCenter) :
    fallbackLoopStep .inf (.fin lng) st c = (.nan, st.2) := by
  norm_num [fallbackLoopStep, haversine_inf_lat, jsLt, jsPowQ, jsNeg, jsDiv, jsExp,
    jsMul, jsAdd_nan]

theorem fallback_inf_lat (lng : ℝ) :
    estimatePopulationDensityFallback .inf (.fin lng) = .nan := by
  have h : populationCenters.foldl (fallbackLoopStep .inf (.fin lng)) (.fin 0, .inf)
      = (.nan, .inf) := by
    simp only [populationCenters, List.foldl_cons, List.foldl_nil, fallbackLoopStep_inf_lat]
  simp [estimatePopulationDensityFallback, h, jsLt, jsMax, jsMin]

theorem solveKepler_ecc_zero (M : ℝ) : solveKeplerEquation M 0 = M := by
  unfold solveKeplerEquation
  rw [if_pos (by norm_num)]
  exact Function.iterate_fixed (by simp [keplerStep]) 12

theorem jsMul_fin (x y : ℝ) : jsMul (.fin x) (.fin y) = .fin (x * y) := rfl

theorem jsAdd_fin (x y : ℝ) : jsAdd (.fin x) (.fin y) = .fin (x + y) := rfl

theorem jsSub_fin (x y : ℝ) : jsSub (.fin x) (.fin y) = .fin (x - y) := rfl

theorem jsNeg_fin (x : ℝ) : jsNeg (.fin x) = .fin (-x) := rfl

theorem jsAbs_fin (x : ℝ) : jsAbs (.fin x) = .fin |x| := rfl

theorem jsExp_fin (x : ℝ) : jsExp (.fin x) = .fin (Real.exp x) := rfl

theorem jsSin_fin (x : ℝ) : jsSin (.fin x) = .fin (Real.sin x) := rfl

theorem jsCos_fin (x : ℝ) : jsCos (.fin x) = .fin (Real.cos x) := rfl

theorem jsMax_fin (x y : ℝ) : jsMax (.fin x) (.fin y) = .fin (max x y) := rfl

theorem jsMin_fin (x y : ℝ) : jsMin (.fin x) (.fin y) = .fin (min x y) := rfl

theorem jsAtan2_fin (y x : ℝ) : jsAtan2 (.fin y) (.fin x) = .fin (atan2 y x) := rfl

theorem jsDiv_fin (x y : ℝ) (hy : y ≠ 0) : jsDiv (.fin x) (.fin y) = .fin (x / y) := by
  simp [jsDiv, hy]

theorem jsSqrt_fin (x : ℝ) (hx : 0 ≤ x) : jsSqrt (.fin x) = .fin (Real.sqrt x) := by
  simp [jsSqrt, hx]

theorem jsPowQ_fin_nonneg (x : ℝ) (e : ℚ) (hx : 0 ≤ x) (he : 0 < e) :
    jsPowQ (.fin x) e = .fin (x ^ (e : ℝ)) := by
  simp [jsPowQ, hx, (not_lt.mpr he.le : ¬ e < 0)]

theorem toRadiansJs_fin (x : ℝ) : toRadiansJs (.fin x) = .fin (x * Real.pi / 180) := by
  rw [toRadiansJs, jsMul_fin, jsDiv_fin _ _ (by norm_num)]

theorem cos_combination_bounds (r1 r2 s : ℝ) :
    -1 ≤ Real.sin r1 * Real.sin r2 + Real.cos r1 * Real.cos r2 * Real.cos s ∧
    Real.sin r1 * Real.sin r2 + Real.cos r1 * Real.cos r2 * Real.cos s ≤ 1 := by
  have h1 : Real.cos (r1 - r2) = Real.cos r1 * Real.cos r2 + Real.sin r1 * Real.sin r2 :=
    Real.cos_sub r1 r2
  have h2 : Real.cos (r1 + r2) = Real.cos r1 * Real.cos r2 - Real.sin r1 * Real.sin r2 :=
    Real.cos_add r1 r2
  have hs1 := Real.neg_one_le_cos s
  have hs2 := Real.cos_le_one s
  have ha1 := Real.neg_one_le_cos (r1 - r2)
  have ha2 := Real.cos_le_one (r1 - r2)
  have hb1 := Real.neg_one_le_cos (r1 + r2)
  have hb2 := Real.cos_le_one (r1 + r2)
  constructor
  · nlinarith [mul_nonneg (by linarith : (0:ℝ) ≤ 1 + Real.cos s)
      (by linarith : (0:ℝ) ≤ 1 + Real.cos (r1 - r2)),
      mul_nonneg (by linarith : (0:ℝ) ≤ 1 - Real.cos s)
      (by linarith : (0:ℝ) ≤ 1 - Real.cos (r1 + r2))]
  · nlinarith [mul_nonneg (by linarith : (0:ℝ) ≤ 1 + Real.cos s)
      (by linarith : (0:ℝ) ≤ 1 - Real.cos (r1 - r2)),
      mul_nonneg (by linarith : (0:ℝ) ≤ 1 - Real.cos s)
      (by linarith : (0:ℝ) ≤ 1 + Real.cos (r1 + r2))]

/-- The haversine intermediate value a, for finite inputs, as an exact real. -/
def havA (lat1 lng1 lat2 lng2 : ℝ) : ℝ :=
  Real.sin ((lat2 - lat1) * Real.pi / 180 / 2) * Real.sin ((lat2 - lat1) * Real.pi / 180 / 2) +
  Real.cos (lat1 * Real.pi / 180) * Real.cos (lat2 * Real.pi / 180) *
    Real.sin ((lng2 - lng1) * Real.pi / 180 / 2) * Real.sin ((lng2 - lng1) * Real.pi / 180 / 2)

theorem havA_bounds (lat1 lng1 lat2 lng2 : ℝ) :
    0 ≤ havA lat1 lng1 lat2 lng2 ∧ havA lat1 lng1 lat2 lng2 ≤ 1 := by
  unfold havA
  rw [show (lat2 - lat1) * Real.pi / 180 / 2 =
      (lat2 * Real.pi / 180 - lat1 * Real.pi / 180) / 2 by ring]
  set r1 := lat1 * Real.pi / 180
  set r2 := lat2 * Real.pi / 180
  set s := (lng2 - lng1) * Real.pi / 180
  have h1 : Real.sin ((r2 - r1) / 2) * Real.sin ((r2 - r1) / 2) =
      (1 - Real.cos (r2 - r1)) / 2 := by
    have h := Real.sin_sq_eq_half_sub ((r2 - r1) / 2)
    rw [show 2 * ((r2 - r1) / 2) = r2 - r1 by ring] at h
    linear_combination h
  have h2 : Real.sin (s / 2) * Real.sin (s / 2) = (1 - Real.cos s) / 2 := by
    have h := Real.sin_sq_eq_half_sub (s / 2)
    rw [show 2 * (s / 2) = s by ring] at h
    linear_combination h
  have h3 : Real.cos r1 * Real.cos r2 * Real.sin (s / 2) * Real.sin (s / 2) =
      Real.cos r1 * Real.cos r2 * ((1 - Real.cos s) / 2) := by
    rw [mul_assoc, h2]
  rw [h1, h3]
  have hcos : Real.cos (r2 - r1) = Real.cos r2 * Real.cos r1 + Real.sin r2 * Real.sin r1 :=
    Real.cos_sub r2 r1
  obtain ⟨hb1, hb2⟩ := cos_combination_bounds r1 r2 s
  constructor <;> nlinarith [hb1, hb2, hcos]

theorem haversine_fin (lat1 lng1 lat2 lng2 : ℝ) :
    haversineDistanceKm (.fin lat1) (.fin lng1) (.fin lat2) (.fin lng2) =
      .fin (EARTH_RADIUS_KM * (2 * atan2 (Real.sqrt (havA lat1 lng1 lat2 lng2))
        (Real.sqrt (1 - havA lat1 lng1 lat2 lng2)))) := by
  obtain ⟨hA0, hA1⟩ := havA_bounds lat1 lng1 lat2 lng2
  simp only [haversineDistanceKm, havA, jsSub_fin, toRadiansJs_fin,
    jsDiv_fin _ (2:ℝ) (by norm_num), jsSin_fin, jsCos_fin, jsMul_fin, jsAdd_fin]
  rw [jsSqrt_fin _ (by rw [← havA]; exact hA0), jsSqrt_fin _ (by rw [← havA]; linarith [hA1]),
    jsAtan2_fin, jsMul_fin, jsMul_fin]

theorem haversine_fin_nonneg (lat1 lng1 lat2 lng2 : ℝ) :
    0 ≤ EARTH_RADIUS_KM * (2 * atan2 (Real.sqrt (havA lat1 lng1 lat2 lng2))
      (Real.sqrt (1 - havA lat1 lng1 lat2 lng2))) := by
  have harg : 0 ≤ atan2 (Real.sqrt (havA lat1 lng1 lat2 lng2))
      (Real.sqrt (1 - havA lat1 lng1 lat2 lng2)) :=
    Complex.arg_nonneg_iff.mpr (Real.sqrt_nonneg _)
  have hE : (0:ℝ) ≤ EARTH_RADIUS_KM := by norm_num [EARTH_RADIUS_KM]
  positivity

theorem fallbackLoopStep_fin (lat lng ρ : ℝ) (m : JsNum) (c : PopulationCenter)
    (hσ : (c.sigmaKm : ℚ) ≠ 0) (hm : m = .inf ∨ ∃ y, m = .fin y) :
    ∃ ρ2 m2, fallbackLoopStep (.fin lat) (.fin lng) (.fin ρ, m) c = (.fin ρ2, m2) ∧
      (m2 = .inf ∨ ∃ y, m2 = .fin y) := by
  have hσR : ((c.sigmaKm : ℚ) : ℝ) ≠ 0 := by exact_mod_cast hσ
  have hden : (2:ℝ) * (c.sigmaKm : ℚ) * (c.sigmaKm : ℚ) ≠ 0 :=
    mul_ne_zero (mul_ne_zero two_ne_zero hσR) hσR
  have hh := haversine_fin lat lng (c.lat : ℚ) (c.lng : ℚ)
  have hnn := haversine_fin_nonneg lat lng (c.lat : ℚ) (c.lng : ℚ)
  simp only [fallbackLoopStep, hh]
  rw [jsPowQ_fin_nonneg _ 2 hnn (by norm_num), jsNeg_fin, jsMul_fin, jsMul_fin,
    jsDiv_fin _ _ hden, jsExp_fin, jsMul_fin, jsAdd_fin]
  refine ⟨_, _, rfl, ?_⟩
  split
  · exact Or.inr ⟨_, rfl⟩
  · exact hm

theorem populationCenters_sigma : ∀ c ∈ populationCenters, (c.sigmaKm : ℚ) ≠ 0 := by
  decide

theorem foldl_fallback_fin (lat lng : ℝ) (cs : List PopulationCenter)
    (hσ : ∀ c ∈ cs, (c.sigmaKm : ℚ) ≠ 0) :
    ∀ (ρ : ℝ) (m : JsNum), (m = .inf ∨ ∃ y, m = .fin y) →
    ∃ ρ2 m2, cs.foldl (fallbackLoopStep (.fin lat) (.fin lng)) (.fin ρ, m) = (.fin ρ2, m2) ∧
      (m2 = .inf ∨ ∃ y, m2 = .fin y) := by
  induction cs with
  | nil => exact fun ρ m hm => ⟨ρ, m, rfl, hm⟩
  | cons c rest ih =>
    intro ρ m hm
    obtain ⟨ρ2, m2, heq, hm2⟩ :=
      fallbackLoopStep_fin lat lng ρ m c (hσ c (by simp)) hm
    rw [List.foldl_cons, heq]
    exact ih (fun x hx => hσ x (by simp [hx])) ρ2 m2 hm2

theorem latWeight_fin (lat : ℝ) :
    ∃ w, jsPowQ (jsMax (.fin 0)
      (jsSub (.fin 1) (jsPowQ (jsDiv (jsAbs (.fin lat)) (.fin 72)) 1.6))) 1.2 = .fin w := by
  rw [jsAbs_fin, jsDiv_fin _ _ (by norm_num),
    jsPowQ_fin_nonneg _ _ (div_nonneg (abs_nonneg lat) (by norm_num)) (by norm_num),
    jsSub_fin, jsMax_fin, jsPowQ_fin_nonneg _ _ (le_max_left 0 _) (by norm_num)]
  exact ⟨_, rfl⟩

theorem fallback_fin_bounds (lat lng : ℝ) :
    ∃ d, estimatePopulationDensityFallback (.fin lat) (.fin lng) = .fin d ∧
      0 ≤ d ∧ d ≤ 30000 := by
  obtain ⟨ρ2, m2, heq, _⟩ := foldl_fallback_fin lat lng populationCenters
    populationCenters_sigma 0 .inf (Or.inl rfl)
  obtain ⟨w, hw⟩ := latWeight_fin lat
  simp only [estimatePopulationDensityFallback, heq, hw]
  have hb : ∀ X : ℝ, 0 ≤ min (max X 0) 30000 ∧ min (max X 0) 30000 ≤ 30000 :=
    fun X => ⟨le_min (le_trans (le_refl 0) (le_max_right X 0)) (by norm_num), min_le_right _ _⟩
  split
  · rw [jsMul_fin, jsAdd_fin, jsAdd_fin, jsMax_fin, jsMin_fin]
    exact ⟨_, rfl, hb _⟩
  · split
    · rw [jsMul_fin, jsAdd_fin, jsMul_fin, jsAdd_fin, jsMax_fin, jsMin_fin]
      exact ⟨_, rfl, hb _⟩
    · rw [jsMax_fin, jsMin_fin]
      exact ⟨_, rfl, hb _⟩

theorem pvec_norm_sq (cO sO cI sI cW sW : ℝ) (hO : sO ^ 2 + cO ^ 2 = 1)
    (hI : sI ^ 2 + cI ^ 2 = 1) (hW : sW ^ 2 + cW ^ 2 = 1) :
    (cO * cW - sO * sW * cI) ^ 2 + (sO * cW + cO * sW * cI) ^ 2 + (sW * sI) ^ 2 = 1 := by
  linear_combination (cW ^ 2 + sW ^ 2 * cI ^ 2) * hO + sW ^ 2 * hI + hW

theorem qvec_norm_sq (cO sO cI sI cW sW : ℝ) (hO : sO ^ 2 + cO ^ 2 = 1)
    (hI : sI ^ 2 + cI ^ 2 = 1) (hW : sW ^ 2 + cW ^ 2 = 1) :
    (-cO * sW - sO * cW * cI) ^ 2 + (-sO * sW + cO * cW * cI) ^ 2 + (cW * sI) ^ 2 = 1 := by
  linear_combination (sW ^ 2 + cW ^ 2 * cI ^ 2) * hO + cW ^ 2 * hI + hW

theorem pq_dot_zero (cO sO cI sI cW sW : ℝ) (hO : sO ^ 2 + cO ^ 2 = 1)
    (hI : sI ^ 2 + cI ^ 2 = 1) :
    (cO * cW - sO * sW * cI) * (-cO * sW - sO * cW * cI) +
    (sO * cW + cO * sW * cI) * (-sO * sW + cO * cW * cI) +
    (sW * sI) * (cW * sI) = 0 := by
  linear_combination (sW * cW * cI ^ 2 - cW * sW) * hO + sW * cW * hI

theorem epd_fin (lat lng : ℝ) :
    ∃ d, estimatePopulationDensity (some (.fin lat)) (some (.fin lng)) = .fin d ∧
      0 ≤ d ∧ d ≤ 30000 := by
  obtain ⟨d, hd, h0, h1⟩ := fallback_fin_bounds lat lng
  exact ⟨d, by simp [estimatePopulationDensity, JsNum.isNaN, hd], h0, h1⟩

theorem impactVals_density_nonneg (asteroid : AsteroidIn) (target : Option (ℝ × ℝ)) :
    0 ≤ (calculateImpactEffectsVals asteroid target).populationDensity := by
  simp only [calculateImpactEffectsVals]
  cases target with
  | none => norm_num [estimatePopulationDensity]
  | some t =>
      obtain ⟨d, hd, h0, _⟩ := epd_fin t.1 t.2
      simp only [Option.map_some']
      rw [hd]
      exact h0

theorem impactVals_fireballDeaths_zero (asteroid : AsteroidIn) (target : Option (ℝ × ℝ)) :
    (calculateImpactEffectsVals asteroid target).fireballDeaths = 0 := by
  have hρ := impactVals_density_nonneg asteroid target
  simp only [calculateImpactEffectsVals] at hρ ⊢
  rw [max_eq_left]
  nlinarith [Real.pi_pos, sq_nonneg asteroid.diameter_km, hρ,
    mul_nonneg (mul_nonneg Real.pi_pos.le (sq_nonneg asteroid.diameter_km)) hρ]

/-! Claim theorems. -/

/-- C2 (amended): estimatePopulationDensity returns exactly 120 when lat or lng
is absent (undefined) or NaN; the source does not guard infinite arguments. -/
theorem C2_default_density (lat lng : Option JsNum)
    (h : lat = none ∨ lng = none ∨ lat = some .nan ∨ lng = some .nan) :
    estimatePopulationDensity lat lng = .fin 120 := by
  rcases h with rfl | rfl | rfl | rfl
  · cases lng <;> rfl
  · cases lat <;> rfl
  · cases lng <;> simp [estimatePopulationDensity, JsNum.isNaN]
  · cases lat <;> simp [estimatePopulationDensity, JsNum.isNaN]

/-- C2 witness: both arguments absent gives 120. -/
theorem C2_default_density_witness : estimatePopulationDensity none none = .fin 120 :=
  C2_default_density none none (Or.inl rfl)

/-- C2 counterexample: for lat = +Infinity (a non-finite, non-NaN number) and
lng = 0, estimatePopulationDensity does not return 120: the guard only tests
undefined and NaN, so the call falls through to the analytic fallback, which
propagates NaN. -/
theorem C2_counterexample :
    estimatePopulationDensity (some .inf) (some (.fin 0)) ≠ .fin 120 := by
  have h : estimatePopulationDensity (some .inf) (some (.fin 0)) = .nan := by
    simp [estimatePopulationDensity, JsNum.isNaN, fallback_inf_lat]
  rw [h]
  simp

/-- C3: for finite orbital elements with eccentricity e satisfying
0 ≤ e < 0.95, computeOrbitalGeometry returns a non-null geometry whose basis
vectors p and q have Euclidean norm 1 and whose dot product is exactly 0 (the
exact-real form of approximately 0 within floating-point tolerance). -/
theorem one_sub_mul_self_nonneg (e : ℝ) (he0 : 0 ≤ e) (he1 : e < 0.95) :
    0 ≤ 1 - e * e := by nlinarith

theorem one_sub_sq_mul_sq_pos (e c : ℝ) (he0 : 0 ≤ e) (he1 : e < 0.95) (hc : c ^ 2 ≤ 1) :
    0 < 1 - e ^ 2 * c ^ 2 := by nlinarith

set_option maxHeartbeats 1600000 in
theorem C3_orthonormal_basis (e i o w m a : ℝ) (rv : Option JsNum)
    (he0 : 0 ≤ e) (he1 : e < 0.95) :
    ∃ g, computeOrbitalGeometry (some ⟨.fin e, .fin i, .fin o, .fin w, .fin m, .fin a⟩) rv
        = some g ∧
      hypot3 g.p.x g.p.y g.p.z = 1 ∧ hypot3 g.q.x g.q.y g.q.z = 1 ∧
      g.p.x * g.q.x + g.p.y * g.q.y + g.p.z * g.q.z = 0 := by
  have hO := Real.sin_sq_add_cos_sq (o * DEG2RAD)
  have hI := Real.sin_sq_add_cos_sq (i * DEG2RAD)
  have hW := Real.sin_sq_add_cos_sq (w * DEG2RAD)
  have hEE := Real.sin_sq_add_cos_sq (solveKeplerEquation (m * DEG2RAD) e)
  simp only [computeOrbitalGeometry, JsNum.toFinite, computeOrbitalGeometryCore]
  set cO := Real.cos (o * DEG2RAD) with hcO
  set sO := Real.sin (o * DEG2RAD) with hsO
  set cI := Real.cos (i * DEG2RAD) with hcI
  set sI := Real.sin (i * DEG2RAD) with hsI
  set cW := Real.cos (w * DEG2RAD) with hcW
  set sW := Real.sin (w * DEG2RAD) with hsW
  set E := solveKeplerEquation (m * DEG2RAD) e with hE
  set sE := Real.sin E with hsE
  set cE := Real.cos E with hcE
  set k := Real.sqrt (max 0 (1 - e * e)) with hk
  have hp := pvec_norm_sq cO sO cI sI cW sW hO hI hW
  have hq := qvec_norm_sq cO sO cI sI cW sW hO hI hW
  have hpq := pq_dot_zero cO sO cI sI cW sW hO hI
  have hkk : k ^ 2 = 1 - e * e := by
    rw [hk, Real.sq_sqrt (le_max_left 0 (1 - e * e))]
    exact max_eq_right (one_sub_mul_self_nonneg e he0 he1)
  set px := cO * cW - sO * sW * cI with hpx
  set py := sO * cW + cO * sW * cI with hpy
  set pz := sW * sI with hpz
  set qx := -cO * sW - sO * cW * cI with hqx
  set qy := -sO * sW + cO * cW * cI with hqy
  set qz := cW * sI with hqz
  set ux := -sE * px + k * cE * qx with hux
  set uy := -sE * py + k * cE * qy with huy
  set uz := -sE * pz + k * cE * qz with huz
  clear_value cO sO cI sI cW sW E sE cE k px py pz qx qy qz ux uy uz
  have hL2 : ux ^ 2 + uy ^ 2 + uz ^ 2 = 1 - e ^ 2 * cE ^ 2 := by
    rw [hux, huy, huz]
    linear_combination sE ^ 2 * hp + (k * cE) ^ 2 * hq - 2 * sE * k * cE * hpq +
      cE ^ 2 * hkk + hEE
  have hc1 : cE ^ 2 ≤ 1 := by rw [hcE]; exact Real.cos_sq_le_one E
  have hpos : 0 < 1 - e ^ 2 * cE ^ 2 := one_sub_sq_mul_sq_pos e cE he0 he1 hc1
  have hLpos : 0 < hypot3 ux uy uz := by
    simp only [hypot3]
    rw [hL2]
    exact Real.sqrt_pos.mpr hpos
  have hnv : normalizeVector ⟨ux, uy, uz⟩ =
      ⟨ux / hypot3 ux uy uz, uy / hypot3 ux uy uz, uz / hypot3 ux uy uz⟩ := by
    simp only [normalizeVector]
    rw [if_neg hLpos.ne']
  have hcond : ¬(ux / hypot3 ux uy uz = 0 ∧ uy / hypot3 ux uy uz = 0 ∧
      uz / hypot3 ux uy uz = 0) := by
    rintro ⟨h1, h2, h3⟩
    rw [div_eq_zero_iff] at h1 h2 h3
    have hux0 : ux = 0 := h1.resolve_right hLpos.ne'
    have huy0 : uy = 0 := h2.resolve_right hLpos.ne'
    have huz0 : uz = 0 := h3.resolve_right hLpos.ne'
    rw [hux0, huy0, huz0] at hL2
    norm_num at hL2
    linarith [hL2, hpos]
  simp only [hnv]
  rw [if_neg hcond]
  refine ⟨_, rfl, ?_, ?_, ?_⟩
  · show hypot3 px py pz = 1
    simp only [hypot3]
    rw [hp, Real.sqrt_one]
  · show hypot3 qx qy qz = 1
    simp only [hypot3]
    rw [hq, Real.sqrt_one]
  · exact hpq

/-- C3 witness: circular equatorial elements, eccentricity 0 and semi-major
axis 1, give a non-null orthonormal basis. -/
theorem C3_orthonormal_basis_witness :
    ∃ g, computeOrbitalGeometry (some ⟨.fin 0, .fin 0, .fin 0, .fin 0, .fin 0, .fin 1⟩) none
        = some g ∧
      hypot3 g.p.x g.p.y g.p.z = 1 ∧ hypot3 g.q.x g.q.y g.q.z = 1 ∧
      g.p.x * g.q.x + g.p.y * g.q.y + g.p.z * g.q.z = 0 :=
  C3_orthonormal_basis 0 0 0 0 0 1 none (by norm_num) (by norm_num)

theorem clamp_5_90_mem (x : ℝ) : 5 ≤ clamp x 5 90 ∧ clamp x 5 90 ≤ 90 :=
  ⟨le_min (le_max_right x 5) (by norm_num), min_le_right _ _⟩

theorem azimuth_range (vx vy : ℝ) :
    0 ≤ jsRem (atan2 vx vy * RAD2DEG + 360) 360 ∧
    jsRem (atan2 vx vy * RAD2DEG + 360) 360 < 360 := by
  have hπ := Real.pi_pos
  have hR : 0 < RAD2DEG := by rw [RAD2DEG]; positivity
  have harg1 : -Real.pi < atan2 vx vy := Complex.neg_pi_lt_arg _
  have ht0 : 0 ≤ atan2 vx vy * RAD2DEG + 360 := by
    have h1 : -Real.pi * RAD2DEG ≤ atan2 vx vy * RAD2DEG :=
      mul_le_mul_of_nonneg_right harg1.le hR.le
    have h2 : -Real.pi * RAD2DEG = -180 := by
      rw [RAD2DEG]
      field_simp
      ring
    linarith
  set t := atan2 vx vy * RAD2DEG + 360 with ht
  unfold jsRem jsTrunc
  rw [if_pos (div_nonneg ht0 (by norm_num))]
  have hf1 : ((⌊t / 360⌋ : ℤ) : ℝ) ≤ t / 360 := Int.floor_le _
  have hf2 : t / 360 < ((⌊t / 360⌋ : ℤ) : ℝ) + 1 := Int.lt_floor_add_one _
  have h1 : ((⌊t / 360⌋ : ℤ) : ℝ) * 360 ≤ t := (le_div_iff₀ (by norm_num)).mp hf1
  have h2 : t < (((⌊t / 360⌋ : ℤ) : ℝ) + 1) * 360 := (div_lt_iff₀ (by norm_num)).mp hf2
  constructor
  · linarith
  · linarith

theorem core_ranges (e i o w m a : ℝ) (rv : Option JsNum) (g : OrbitalGeometry)
    (h : computeOrbitalGeometryCore e i o w m a rv = some g) :
    (5 ≤ g.impactAngleDeg ∧ g.impactAngleDeg ≤ 90) ∧
    (0 ≤ g.impactAzimuthDeg ∧ g.impactAzimuthDeg < 360) := by
  simp only [computeOrbitalGeometryCore] at h
  split at h
  · exact absurd h (by simp)
  · injection h with h
    subst h
    exact ⟨clamp_5_90_mem _, azimuth_range _ _⟩

/-- C4: whenever computeOrbitalGeometry returns a non-null geometry, the impact
angle lies in [5, 90] and the impact azimuth lies in [0, 360). -/
theorem C4_ranges (orbitalData : Option NeoOrbitalData) (rv : Option JsNum)
    (g : OrbitalGeometry) (h : computeOrbitalGeometry orbitalData rv = some g) :
    (5 ≤ g.impactAngleDeg ∧ g.impactAngleDeg ≤ 90) ∧
    (0 ≤ g.impactAzimuthDeg ∧ g.impactAzimuthDeg < 360) := by
  cases orbitalData with
  | none => exact absurd h (by simp [computeOrbitalGeometry])
  | some od =>
    simp only [computeOrbitalGeometry] at h
    split at h
    · exact core_ranges _ _ _ _ _ _ _ _ h
    · exact absurd h (by simp)

theorem atan2_zero_one : atan2 0 1 = 0 := by
  unfold atan2
  have h1 : (⟨1, 0⟩ : ℂ) = 1 := by
    apply Complex.ext <;> simp
  rw [h1, Complex.arg_one]

theorem norm010 : normalizeVector ⟨0, 1, 0⟩ = ⟨0, 1, 0⟩ := by
  simp only [normalizeVector, hypot3]
  norm_num

theorem geom0_eval :
    computeOrbitalGeometry (some ⟨.fin 0, .fin 0, .fin 0, .fin 0, .fin 0, .fin 1⟩) none =
      some ⟨⟨1, 0, 0⟩, ⟨0, 1, 0⟩, 0, 0, 1, 0, 5, 0⟩ := by
  have hmax1 : max (1e-6 : ℝ) 1 = 1 := max_eq_right (by norm_num)
  have hmax2 : max (0 : ℝ) 1 = 1 := max_eq_right zero_le_one
  have hmax3 : max (0 : ℝ) 5 = 5 := max_eq_right (by norm_num)
  have hmin1 : min (5 : ℝ) 90 = 5 := min_eq_left (by norm_num)
  simp only [computeOrbitalGeometry, JsNum.toFinite, computeOrbitalGeometryCore, zero_mul,
    solveKepler_ecc_zero, Real.sin_zero, Real.cos_zero]
  norm_num [atan2_zero_one, norm010, hypot2, clamp, jsRem, jsTrunc, hmax1, hmax2, hmax3, hmin1]

/-- C4 witness: the geometry computed from circular equatorial elements has
impact angle 5 within [5, 90] and azimuth 0 within [0, 360). -/
theorem C4_ranges_witness :
    (5 ≤ (OrbitalGeometry.mk ⟨1, 0, 0⟩ ⟨0, 1, 0⟩ 0 0 1 0 5 0).impactAngleDeg ∧
      (OrbitalGeometry.mk ⟨1, 0, 0⟩ ⟨0, 1, 0⟩ 0 0 1 0 5 0).impactAngleDeg ≤ 90) ∧
    (0 ≤ (OrbitalGeometry.mk ⟨1, 0, 0⟩ ⟨0, 1, 0⟩ 0 0 1 0 5 0).impactAzimuthDeg ∧
      (OrbitalGeometry.mk ⟨1, 0, 0⟩ ⟨0, 1, 0⟩ 0 0 1 0 5 0).impactAzimuthDeg < 360) :=
  C4_ranges _ none _ geom0_eval

/-- C5: computeOrbitalGeometry returns null (and, being a total function, never
throws) whenever the orbital-data record is absent or any of the six parsed
element values is not a finite number. -/
theorem C5_null_on_nonfinite (orbitalData : Option NeoOrbitalData) (rv : Option JsNum)
    (h : orbitalData = none ∨ ∃ od, orbitalData = some od ∧
      (od.eccentricity.toFinite = none ∨ od.inclination.toFinite = none ∨
       od.ascending_node_longitude.toFinite = none ∨ od.perihelion_argument.toFinite = none ∨
       od.mean_anomaly.toFinite = none ∨ od.semi_major_axis.toFinite = none)) :
    computeOrbitalGeometry orbitalData rv = none := by
  rcases h with rfl | ⟨od, rfl, hfield⟩
  · rfl
  · simp only [computeOrbitalGeometry]
    split
    · rcases hfield with h | h | h | h | h | h <;> simp_all
    · rfl

/-- C5 witness: an eccentricity parsed from an empty string (NaN) gives null. -/
theorem C5_null_on_nonfinite_witness :
    computeOrbitalGeometry (some ⟨.nan, .fin 0, .fin 0, .fin 0, .fin 0, .fin 1⟩) none = none :=
  C5_null_on_nonfinite _ none (Or.inr ⟨_, rfl, Or.inl rfl⟩)

/-- C6: for eccentricity 0 the Newton-Raphson update maps every iterate to M,
so after the fixed 12 iterations solveKeplerEquation returns exactly M. -/
theorem C6_kepler_circular (M : ℝ) : solveKeplerEquation M 0 = M :=
  solveKepler_ecc_zero M

/-- C8: for every finite (lat, lng) pair, estimatePopulationDensity (headless
context, hence the analytic fallback path) returns a finite value that lies
within [0, 30000]. -/
theorem C8_density_range (lat lng : ℝ) :
    ∃ d, estimatePopulationDensity (some (.fin lat)) (some (.fin lng)) = .fin d ∧
      0 ≤ d ∧ d ≤ 30000 :=
  epd_fin lat lng

/-- C7: fireball_deaths is the string "0" for every asteroid with positive
diameter and every target: the crater area (radius 10 d) always exceeds the
fireball area (radius 5 d), so the Math.max(0, x) clamp zeroes the count. -/
theorem C7_fireball_deaths_zero (asteroid : AsteroidIn) (target : Option (ℝ × ℝ))
    (h : 0 < asteroid.diameter_km) :
    (calculateImpactEffects asteroid target).fireball_deaths = "0" := by
  simp only [calculateImpactEffects, impactVals_fireballDeaths_zero]
  rw [formatInteger, jsRound]
  norm_num
  decide

/-- C7 witness: a 1 km asteroid at 60000 km/h with no target has fireball
deaths "0". -/
theorem C7_fireball_deaths_zero_witness :
    (calculateImpactEffects ⟨1, 60000⟩ none).fireball_deaths = "0" :=
  C7_fireball_deaths_zero ⟨1, 60000⟩ none (by norm_num)

theorem impactVals_1_60000_energy :
    (calculateImpactEffectsVals ⟨1, 60000⟩ none).energy = 5 / 36 := by
  simp only [calculateImpactEffectsVals]
  norm_num

theorem impactVals_1_60000_radii :
    (calculateImpactEffectsVals ⟨1, 60000⟩ none).craterDiameter = 20 ∧
    (calculateImpactEffectsVals ⟨1, 60000⟩ none).fireballRadius = 5 ∧
    (calculateImpactEffectsVals ⟨1, 60000⟩ none).shockwaveRadius = 50 := by
  refine ⟨?_, ?_, ?_⟩ <;> simp only [calculateImpactEffectsVals] <;> norm_num

theorem impactVals_1_60000_magnitude :
    (calculateImpactEffectsVals ⟨1, 60000⟩ none).earthquakeMagnitude = 5 := by
  simp only [calculateImpactEffectsVals]
  norm_num

theorem impactEffects_1_60000_magnitude_str :
    (calculateImpactEffects ⟨1, 60000⟩ none).earthquake_magnitude = "5.0" := by
  simp only [calculateImpactEffects, impactVals_1_60000_magnitude]
  unfold toFixed
  norm_num
  decide

/-- C1 (amended): for diameter 1 km and velocity 60000 km/h with no target
location, the report has energy_megatons "0.14", crater_diameter_km "20.00",
fireball_radius_km "5.00", shockwave_radius_km "50.00", and earthquake_magnitude
"5.0": the source applies log10 to max(1, energy), so the sub-megaton energy
0.1389 gives magnitude min(5 + log10(1), 10) = 5.0 rather than 4.14. -/
theorem C1_scenario :
    (calculateImpactEffects ⟨1, 60000⟩ none).energy_megatons = "0.14" ∧
    (calculateImpactEffects ⟨1, 60000⟩ none).crater_diameter_km = "20.00" ∧
    (calculateImpactEffects ⟨1, 60000⟩ none).fireball_radius_km = "5.00" ∧
    (calculateImpactEffects ⟨1, 60000⟩ none).shockwave_radius_km = "50.00" ∧
    (calculateImpactEffects ⟨1, 60000⟩ none).earthquake_magnitude = "5.0" := by
  refine ⟨?_, ?_, ?_, ?_, impactEffects_1_60000_magnitude_str⟩
  · simp only [calculateImpactEffects, impactVals_1_60000_energy]
    unfold toFixed
    norm_num
    decide
  · simp only [calculateImpactEffects, impactVals_1_60000_radii.1]
    unfold toFixed
    norm_num
    decide
  · simp only [calculateImpactEffects, impactVals_1_60000_radii.2.1]
    unfold toFixed
    norm_num
    decide
  · simp only [calculateImpactEffects, impactVals_1_60000_radii.2.2]
    unfold toFixed
    norm_num
    decide

/-- C1 counterexample: at diameter 1 km and velocity 60000 km/h the reported
earthquake magnitude is "5.0", not the "4.1" that min(5 + log10(0.1389), 10)
formatted to one decimal would be, because the source clamps the energy with
max(1, energy) before taking log10. -/
theorem C1_counterexample :
    (calculateImpactEffects ⟨1, 60000⟩ none).earthquake_magnitude ≠ "4.1" := by
  rw [impactEffects_1_60000_magnitude_str]
  decide

set_option maxHeartbeats 3200000 in
/-- C10: for fixed nonnegative velocity and fixed target location, every
numeric magnitude computed by calculateImpactEffects is monotonically
non-decreasing as the diameter increases over positive diameters. -/
theorem C10_monotone_in_diameter (v : ℝ) (hv : 0 ≤ v) (target : Option (ℝ × ℝ))
    (d1 d2 : ℝ) (hd1 : 0 < d1) (hd : d1 ≤ d2) :
    ImpactValsLe (calculateImpactEffectsVals ⟨d1, v⟩ target)
      (calculateImpactEffectsVals ⟨d2, v⟩ target) := by
  obtain ⟨ρ, hρ0, hρeq⟩ : ∃ ρ, 0 ≤ ρ ∧ ∀ d : ℝ,
      (calculateImpactEffectsVals ⟨d, v⟩ target).populationDensity = ρ := by
    cases target with
    | none =>
        exact ⟨120, by norm_num,
          fun d => by simp [calculateImpactEffectsVals, estimatePopulationDensity]⟩
    | some t =>
        obtain ⟨x, hx, h0, _⟩ := epd_fin t.1 t.2
        exact ⟨x, h0, fun d => by simp [calculateImpactEffectsVals, Option.map_some', hx]⟩
  have hM := hρeq d1
  simp only [calculateImpactEffectsVals] at hM
  have hfb1 := impactVals_fireballDeaths_zero ⟨d1, v⟩ target
  have hfb2 := impactVals_fireballDeaths_zero ⟨d2, v⟩ target
  simp only [calculateImpactEffectsVals] at hfb1 hfb2
  rw [hM] at hfb1 hfb2
  have hsq : d1 ^ 2 ≤ d2 ^ 2 := by nlinarith
  have hcube : d1 ^ 3 ≤ d2 ^ 3 := by nlinarith
  have hE : 0.5 * d1 ^ 3 * (v / 3600) ^ 2 / 1000 ≤ 0.5 * d2 ^ 3 * (v / 3600) ^ 2 / 1000 := by
    have hc3 : 0 ≤ (d2 ^ 3 - d1 ^ 3) * (v / 3600) ^ 2 :=
      mul_nonneg (by linarith) (sq_nonneg _)
    nlinarith [hc3]
  have hkey : 0 ≤ Real.pi * (d2 ^ 2 - d1 ^ 2) * ρ :=
    mul_nonneg (mul_nonneg Real.pi_pos.le (by linarith)) hρ0
  have hkey2 : 0 ≤ (d2 - d1) * ρ := mul_nonneg (by linarith) hρ0
  have hmax1 : (1:ℝ) ≤ max 1 (0.5 * d1 ^ 3 * (v / 3600) ^ 2 / 1000) := le_max_left 1 _
  have hmaxle : max 1 (0.5 * d1 ^ 3 * (v / 3600) ^ 2 / 1000) ≤
      max 1 (0.5 * d2 ^ 3 * (v / 3600) ^ 2 / 1000) := max_le_max le_rfl hE
  have hlog : Real.logb 10 (max 1 (0.5 * d1 ^ 3 * (v / 3600) ^ 2 / 1000)) ≤
      Real.logb 10 (max 1 (0.5 * d2 ^ 3 * (v / 3600) ^ 2 / 1000)) :=
    Real.logb_le_logb_of_le (by norm_num) (by linarith) hmaxle
  simp only [ImpactValsLe, calculateImpactEffectsVals]
  rw [hM]
  refine ⟨hE, by linarith, by linarith, by linarith, by linarith, by linarith, by linarith,
    le_refl ρ, ?_, ?_, ?_, ?_, ?_, ?_, ?_, ?_, le_refl _, ?_, ?_, le_refl _, ?_, ?_⟩
  · nlinarith [hkey]
  · rw [hfb1, hfb2]
  · nlinarith [hkey]
  · nlinarith [hkey]
  · exact max_le_max le_rfl (by nlinarith [hkey])
  · exact max_le_max le_rfl (by nlinarith [hkey])
  · nlinarith [hkey2]
  · nlinarith [hkey]
  · exact min_le_min (by linarith) le_rfl
  · exact min_le_min (by linarith) le_rfl
  · exact max_le_max (Int.floor_le_floor (by nlinarith [hE])) le_rfl
  · split_ifs <;> linarith

/-- C10 witness: the monotonicity at diameters 1 and 2 km, velocity 60000 km/h,
no target. -/
theorem C10_monotone_in_diameter_witness :
    ImpactValsLe (calculateImpactEffectsVals ⟨1, 60000⟩ none)
      (calculateImpactEffectsVals ⟨2, 60000⟩ none) :=
  C10_monotone_in_diameter 60000 (by norm_num) none 1 2 (by norm_num) (by norm_num)

/-- C9: tsunami_height_m is exactly "0" for diameter at most 0.5 km (including
the boundary value 0.5 itself), and (diameter * 10) formatted to one decimal
place for diameter strictly greater than 0.5 km. -/
theorem C9_tsunami_threshold (asteroid : AsteroidIn) (target : Option (ℝ × ℝ)) :
    (asteroid.diameter_km ≤ 0.5 →
      (calculateImpactEffects asteroid target).tsunami_height_m = "0") ∧
    (0.5 < asteroid.diameter_km →
      (calculateImpactEffects asteroid target).tsunami_height_m =
        toFixed 1 (asteroid.diameter_km * 10)) := by
  constructor
  · intro h
    simp only [calculateImpactEffects]
    rw [if_neg (not_lt.mpr h)]
  · intro h
    simp only [calculateImpactEffects]
    rw [if_pos h]

/-- C9 witness: at the boundary diameter 0.5 exactly, the tsunami height is the
string "0". -/
theorem C9_tsunami_threshold_witness :
    (calculateImpactEffects ⟨0.5, 60000⟩ none).tsunami_height_m = "0" :=
  (C9_tsunami_threshold ⟨0.5, 60000⟩ none).1 (by norm_num)

end
